import Mathlib

/-!
Verification development for the client-side controller in
`src/static/script.js` of the ZipCodeFinder repository: a batch
address-geocoding front end with a session lifecycle and a
progress-polling state machine.

The JavaScript is embedded shallowly:

* the module-level mutable globals (`currentSessionId`,
  `processingInterval`, `isProcessing`) and the DOM cells the code writes
  (button visibility, progress text, counters, the rendered log) become
  fields of `ControllerState`;
* the interval-timer table of the browser (`setInterval` /
  `clearInterval`) becomes the `liveTimers` / `nextTimer` fields of
  `World`;
* each event handler becomes a function `... : World → World`
  (or `ControllerState → ControllerState` when it touches no timer);
* network calls are suspension points: the outcome of an awaited fetch is
  passed in as an explicit `FetchOutcome` / `StopOutcome` argument, and an
  `async` function whose guard runs before the `await` while its
  continuation runs after is split into guard and continuation so that
  interleavings can be expressed;
* JavaScript truthiness on the string / `null` values the code tests is
  modelled by `jsTruthy` (`null`, `undefined` and `""` are falsy).
-/

/-- One entry of `status.results_log` (server contract for the status
endpoint): timestamp, message, and a severity/type tag used for
styling. -/
structure LogEntry where
  timestamp : String
  message : String
  type : String
deriving Repr, DecidableEq

/-- The parsed JSON body of a status response, with exactly the fields
read by `updateProgressDisplay` / `updateProgress`.  Fields the code
defends with `|| 0` (or tests for truthiness) are `Option`s: `none`
models an absent (`undefined`) field.  Counts are naturals;
`progress_percent` is modelled as a natural number. -/
structure Status where
  progress_percent : Option Nat
  current_address : Option String
  total_processed : Option Nat
  successful_geocodes : Option Nat
  failed_geocodes : Option Nat
  processing_complete : Bool
  results_log : Option (List LogEntry)
deriving Repr, DecidableEq

/-- JavaScript truthiness of a nullable string: `null` / `undefined`
(here `none`) and the empty string are falsy, every other string is
truthy.  Used for `!currentSessionId` and the `current_address` test. -/
def jsTruthy : Option String → Bool
  | none => false
  | some s => s != ""

/-- The observable controller state: the three mutable globals of
`script.js` (lines 1-4) plus every DOM / console cell the functions under
verification write.  `scrollCount` counts executions of the
scroll-to-bottom line; `alerts` records `showError` messages (newest
first); `consoleErrors` records `console.error` diagnostics (newest
first). -/
structure ControllerState where
  currentSessionId : Option String
  processingInterval : Option Nat
  isProcessing : Bool
  processBtnVisible : Bool
  stopBtnVisible : Bool
  progressText : String
  progressFillWidth : Nat
  processedCountText : Nat
  successCountText : Nat
  failedCountText : Nat
  successRateText : String
  renderedLog : List LogEntry
  scrollCount : Nat
  alerts : List String
  consoleErrors : List String
  progressSectionVisible : Bool
  resultsSectionVisible : Bool
  downloadVisible : Bool
deriving Repr, DecidableEq

/-- `showError(message)` (line 315): alerts the message with an
`Error: ` marker in front. -/
def showError (message : String) (c : ControllerState) : ControllerState :=
  { c with alerts := ("Error: " ++ message) :: c.alerts }

/-- `showLoading(message)` (lines 319-322): writes a loading spinner plus
the message into the progress text and shows the progress section. -/
def showLoading (message : String) (c : ControllerState) : ControllerState :=
  { c with progressText := "<div class=\"loading\"></div>" ++ message,
           progressSectionVisible := true }

/-- The success-rate cell written by `updateProgressDisplay`
(lines 258-260).  The source computes

* `total` as the sum of the two counts with `|| 0` defaults,
* `rate` as `Math.round` of the raw `successful_geocodes` field divided
  by `total`, times 100, when `total > 0`, and `0` otherwise.

`total` uses the defaults while the division uses the raw field: if
`successful_geocodes` is absent and `total > 0` the JavaScript division
yields `NaN` and the cell reads `"NaN%"`.  `Math.round` on a
non-negative rational rounds half up, which is `round` on `ℚ`. -/
def successRateOf (st : Status) : String :=
  let total := st.successful_geocodes.getD 0 + st.failed_geocodes.getD 0
  if total > 0 then
    match st.successful_geocodes with
    | some s => toString (round (((s : ℚ) / (total : ℚ)) * 100)) ++ "%"
    | none => "NaN%"
  else "0%"

/-- `updateProgressDisplay(status)` (lines 244-261): writes the progress
bar width, the progress text (current address if truthy, else the
percentage), the three counters, and the success-rate cell. -/
def updateProgressDisplay (st : Status) (c : ControllerState) : ControllerState :=
  let progress := st.progress_percent.getD 0
  { c with
    progressFillWidth := progress,
    progressText :=
      if jsTruthy st.current_address then
        "Processing: " ++ st.current_address.getD ""
      else
        "Progress: " ++ toString progress ++ "%",
    processedCountText := st.total_processed.getD 0,
    successCountText := st.successful_geocodes.getD 0,
    failedCountText := st.failed_geocodes.getD 0,
    successRateText := successRateOf st }

/-- `updateResultsLog(logEntries)` (lines 263-282): returns unchanged on a
falsy or empty argument; otherwise replaces the rendered view with
`logEntries.slice(-50)` — the last `min(length, 50)` entries in order —
and scrolls to the bottom. -/
def updateResultsLog (logEntries : Option (List LogEntry)) (c : ControllerState) : ControllerState :=
  match logEntries with
  | none => c
  | some entries =>
    if entries.length == 0 then c
    else
      { c with renderedLog := entries.drop (entries.length - 50),
               scrollCount := c.scrollCount + 1 }

/-- The world: controller state plus the interval-timer table of the
browser.  `liveTimers` holds the ids of timers created by `setInterval`
and not yet cleared; `nextTimer` is the next fresh id. -/
structure World where
  ctrl : ControllerState
  liveTimers : List Nat
  nextTimer : Nat
deriving Repr, DecidableEq

/-- `setInterval(...)`: allocates a fresh live timer id. -/
def setIntervalW (w : World) : Nat × World :=
  (w.nextTimer,
   { w with liveTimers := w.nextTimer :: w.liveTimers, nextTimer := w.nextTimer + 1 })

/-- `clearInterval(h)`: removes the timer id `h` from the live set; a
no-op on `null` or on an id that is no longer live.  It does not null the
variable that held the id. -/
def clearIntervalW (h : Option Nat) (w : World) : World :=
  match h with
  | none => w
  | some t => { w with liveTimers := w.liveTimers.filter (fun x => x != t) }

/-- `startProcessing()` (lines 192-202): sets `isProcessing`, swaps the
process / stop buttons, shows the progress and results sections, and
starts the 1-second polling interval, storing its id in
`processingInterval`.  Note that it does not clear any previously created
interval. -/
def startProcessing (w : World) : World :=
  let c1 := { w.ctrl with
    isProcessing := true,
    processBtnVisible := false,
    stopBtnVisible := true,
    progressSectionVisible := true,
    resultsSectionVisible := true }
  let p := setIntervalW { w with ctrl := c1 }
  { p.2 with ctrl := { p.2.ctrl with processingInterval := some p.1 } }

/-- `completeProcessing()` (lines 284-294): clears the polling interval,
ends processing, restores the process button, writes the completion text,
fills the bar, and shows the download section.  (`processingInterval`
itself keeps its stale id: the code never nulls it.) -/
def completeProcessing (w : World) : World :=
  let w1 := clearIntervalW w.ctrl.processingInterval w
  { w1 with ctrl := { w1.ctrl with
      isProcessing := false,
      processBtnVisible := true,
      stopBtnVisible := false,
      progressText := "Processing complete!",
      progressFillWidth := 100,
      downloadVisible := true } }

/-- Outcome of the awaited stop request in `stopProcessing`: 2xx (`ok`),
non-2xx (`httpError` — `response.ok` false, nothing thrown), or a thrown
transport error with its message (`netError`). -/
inductive StopOutcome where
  | ok
  | httpError
  | netError (msg : String)
deriving Repr, DecidableEq

/-- `stopProcessing()` (lines 204-222): returns at once if
`currentSessionId` is falsy; on a 2xx stop response clears the interval,
ends processing, swaps the buttons back and writes the stopped-by-user
text; on a thrown error surfaces `Failed to stop processing: ` plus the
message via `showError`; on a non-2xx response the `if (response.ok)` has
no `else`, so nothing at all happens. -/
def stopProcessing (o : StopOutcome) (w : World) : World :=
  if !(jsTruthy w.ctrl.currentSessionId) then w
  else
    match o with
    | .ok =>
      let w1 := clearIntervalW w.ctrl.processingInterval w
      { w1 with ctrl := { w1.ctrl with
          isProcessing := false,
          processBtnVisible := true,
          stopBtnVisible := false,
          progressText := "Processing stopped by user" } }
    | .httpError => w
    | .netError msg =>
      { w with ctrl := showError ("Failed to stop processing: " ++ msg) w.ctrl }

/-- Outcome of the awaited status fetch-and-parse in `updateProgress`: a
thrown network or JSON-parse error with its message (`netError`, caught
by the `catch`), a parsed non-2xx response (`httpError` — `response.ok`
false), or a parsed 2xx body (`ok`). -/
inductive FetchOutcome where
  | netError (msg : String)
  | httpError
  | ok (st : Status)
deriving Repr, DecidableEq

/-- The body of `updateProgress` after its `await` points (lines 228-241):
on a 2xx status body, update the progress display and the results log
and, if the completion flag of the snapshot is set, run
`completeProcessing`; on a non-2xx response do nothing; on a thrown error
log `Failed to update progress: ` plus the message to the console. -/
def updateProgressCont (o : FetchOutcome) (w : World) : World :=
  match o with
  | .ok st =>
    let c1 := updateProgressDisplay st w.ctrl
    let c2 := updateResultsLog st.results_log c1
    let w2 := { w with ctrl := c2 }
    if st.processing_complete then completeProcessing w2 else w2
  | .httpError => w
  | .netError msg =>
    { w with ctrl := { w.ctrl with
        consoleErrors := ("Failed to update progress: " ++ msg) :: w.ctrl.consoleErrors } }

/-- The guard at the top of `updateProgress` (line 225):
`if (!currentSessionId || !isProcessing) return;`. -/
def tickGuard (c : ControllerState) : Bool :=
  jsTruthy c.currentSessionId && c.isProcessing

/-- `updateProgress` as an interleaved async execution: the guard reads
the controller state at call time (`guardCtrl`, before the `await`),
while the continuation mutates the state at resume time (`w`).  A fetch
already in flight when another handler ran is exactly a call where
`guardCtrl` is older than `w`. -/
def updateProgressInterleaved (guardCtrl : ControllerState) (o : FetchOutcome) (w : World) : World :=
  if tickGuard guardCtrl then updateProgressCont o w else w

/-- `updateProgress()` (lines 224-242) run without interleaving: guard
and continuation both see the same state. -/
def updateProgress (o : FetchOutcome) (w : World) : World :=
  updateProgressInterleaved w.ctrl o w

/-- The file-type test of `handleFileUpload` (line 68):
`file.name.toLowerCase().endsWith(".csv")`, rendered at the
character-sequence level (a JavaScript string is a sequence of
characters; lowercase the characters, then test the 4-character
suffix). -/
def endsWithCsvCI (name : String) : Bool :=
  ".csv".data.isSuffixOf (name.data.map Char.toLower)

/-- The validation part of `handleFileUpload(file)` (lines 67-77), up
to the first network call: a filename failing `endsWithCsvCI` is
rejected with `showError` and the function returns; otherwise
`showLoading` runs and the upload fetch is issued.  The returned flag
records whether a network call was made. -/
def handleFileUpload (name : String) (c : ControllerState) : ControllerState × Bool :=
  if !(endsWithCsvCI name) then
    (showError "Please select a CSV file." c, false)
  else
    (showLoading "Uploading file..." c, true)

/-- The validation part of `processFile()` (lines 152-169), up to the
first network call, with the four column-select values passed
explicitly: a falsy `currentSessionId` fails with `No file uploaded`; an
empty binding among the four fails with
`Please select all column mappings`; otherwise the process fetch is
issued.  The returned flag records whether a network call was made. -/
def processFile (a c s z : String) (ctrl : ControllerState) : ControllerState × Bool :=
  if !(jsTruthy ctrl.currentSessionId) then
    (showError "No file uploaded" ctrl, false)
  else if a == "" || c == "" || s == "" || z == "" then
    (showError "Please select all column mappings" ctrl, false)
  else
    (ctrl, true)

/-- The events of the session-lifecycle / polling state machine that the
temporal claims quantify over: invoking `startProcessing`, the
resolution of a `stopProcessing` request, a full polling tick (guard and
continuation at the same state), and the resumption of a tick whose
guard had already passed earlier (an in-flight fetch completing). -/
inductive Event where
  | start
  | stopResolved (o : StopOutcome)
  | tick (o : FetchOutcome)
  | resume (o : FetchOutcome)
deriving Repr, DecidableEq

/-- The effect of one event on the world. -/
def stepEvent (e : Event) (w : World) : World :=
  match e with
  | .start => startProcessing w
  | .stopResolved o => stopProcessing o w
  | .tick o => updateProgress o w
  | .resume o => updateProgressCont o w

/-- Run a sequence of events, oldest first. -/
def runEvents : List Event → World → World
  | [], w => w
  | e :: es, w => runEvents es (stepEvent e w)

/-- Along a trace, every `start` event fires while processing is
inactive (the flow the UI enforces by hiding the process button while
running). -/
def startsGuarded : List Event → World → Bool
  | [], _ => true
  | e :: es, w =>
    (match e with
     | Event.start => !w.ctrl.isProcessing
     | _ => true) && startsGuarded es (stepEvent e w)

/-- The timer invariant: at most one live recurring timer; every live
timer id is the one stored in `processingInterval`; and no timer is live
while processing is inactive. -/
def timerInv (w : World) : Bool :=
  decide (w.liveTimers.length ≤ 1) &&
  w.liveTimers.all (fun t => w.ctrl.processingInterval == some t) &&
  (w.ctrl.isProcessing || w.liveTimers.isEmpty)

/-- The controller state at page load: no session, no interval, nothing
shown or recorded. -/
def initCtrl : ControllerState :=
  { currentSessionId := none,
    processingInterval := none,
    isProcessing := false,
    processBtnVisible := true,
    stopBtnVisible := false,
    progressText := "",
    progressFillWidth := 0,
    processedCountText := 0,
    successCountText := 0,
    failedCountText := 0,
    successRateText := "",
    renderedLog := [],
    scrollCount := 0,
    alerts := [],
    consoleErrors := [],
    progressSectionVisible := false,
    resultsSectionVisible := false,
    downloadVisible := false }

/-- The controller state after a successful upload bound session id
`"s1"`. -/
def sessionCtrl : ControllerState :=
  { initCtrl with currentSessionId := some "s1" }

/-- The world after a successful upload bound session id `"s1"`. -/
def sessionWorld : World :=
  { ctrl := sessionCtrl, liveTimers := [], nextTimer := 0 }

/-- The world while processing runs: `startProcessing` applied to
`sessionWorld`. -/
def runningWorld : World :=
  startProcessing sessionWorld

/-- The world after a stop request resolved with a success response while
`runningWorld` was current. -/
def stoppedWorld : World :=
  stopProcessing .ok runningWorld

/-- A status snapshot with the completion flag set. -/
def statusComplete : Status :=
  { progress_percent := some 100,
    current_address := none,
    total_processed := some 10,
    successful_geocodes := some 7,
    failed_geocodes := some 3,
    processing_complete := true,
    results_log := some [⟨"12:00:00", "Geocoding complete", "success"⟩] }

/-- A status snapshot with the completion flag clear. -/
def statusPartial : Status :=
  { progress_percent := some 40,
    current_address := some "1 Main St",
    total_processed := some 4,
    successful_geocodes := some 3,
    failed_geocodes := some 1,
    processing_complete := false,
    results_log := some [⟨"12:00:00", "Geocoded 1 Main St", "success"⟩] }

/-- A status snapshot carrying the success / failure counts 7 and 3. -/
def status73 : Status :=
  { progress_percent := some 100,
    current_address := none,
    total_processed := some 10,
    successful_geocodes := some 7,
    failed_geocodes := some 3,
    processing_complete := false,
    results_log := none }

/-- A status snapshot carrying zero successes and zero failures. -/
def status00 : Status :=
  { progress_percent := some 0,
    current_address := none,
    total_processed := some 0,
    successful_geocodes := some 0,
    failed_geocodes := some 0,
    processing_complete := false,
    results_log := none }

/-- A 200-entry log, messages numbered 0 through 199. -/
def entries200 : List LogEntry :=
  (List.range 200).map (fun i => ⟨"12:00:00", toString i, "success"⟩)

/-! ## Helper lemmas -/

/-- `clearInterval` never touches the controller state. -/
theorem clearIntervalW_ctrl (h : Option Nat) (w : World) :
    (clearIntervalW h w).ctrl = w.ctrl := by
  cases h <;> rfl

/-- `clearInterval` of the stored interval id empties the live-timer set
whenever every live timer carries the stored id. -/
theorem clear_own_interval (w : World)
    (h : ∀ t ∈ w.liveTimers, w.ctrl.processingInterval = some t) :
    (clearIntervalW w.ctrl.processingInterval w).liveTimers = [] := by
  cases hI : w.ctrl.processingInterval with
  | none =>
    cases hL : w.liveTimers with
    | nil => simpa [clearIntervalW, hI] using hL
    | cons t ts =>
      have := h t (by rw [hL]; exact List.mem_cons_self t ts)
      rw [hI] at this
      exact absurd this (by simp)
  | some i =>
    simp only [clearIntervalW]
    apply List.filter_eq_nil_iff.mpr
    intro a ha
    have := h a ha
    rw [hI] at this
    simp only [Option.some.injEq] at this
    simp [this]

/-- The display writer changes no lifecycle field. -/
theorem updateProgressDisplay_lifecycle (st : Status) (c : ControllerState) :
    (updateProgressDisplay st c).isProcessing = c.isProcessing ∧
    (updateProgressDisplay st c).processingInterval = c.processingInterval ∧
    (updateProgressDisplay st c).currentSessionId = c.currentSessionId := by
  exact ⟨rfl, rfl, rfl⟩

/-- The log writer changes no lifecycle field. -/
theorem updateResultsLog_lifecycle (l : Option (List LogEntry)) (c : ControllerState) :
    (updateResultsLog l c).isProcessing = c.isProcessing ∧
    (updateResultsLog l c).processingInterval = c.processingInterval ∧
    (updateResultsLog l c).currentSessionId = c.currentSessionId := by
  cases l with
  | none => exact ⟨rfl, rfl, rfl⟩
  | some es =>
    simp only [updateResultsLog]
    split <;> exact ⟨rfl, rfl, rfl⟩

/-- A tick whose guard sees inactive processing is a no-op. -/
theorem updateProgress_of_not_processing (o : FetchOutcome) (w : World)
    (h : w.ctrl.isProcessing = false) :
    updateProgress o w = w := by
  simp [updateProgress, updateProgressInterleaved, tickGuard, h]

/-- The Bool timer invariant, as a proposition. -/
theorem timerInv_iff (w : World) :
    timerInv w = true ↔
      (w.liveTimers.length ≤ 1 ∧
       (∀ t ∈ w.liveTimers, w.ctrl.processingInterval = some t) ∧
       (w.ctrl.isProcessing = false → w.liveTimers = [])) := by
  cases hb : w.ctrl.isProcessing <;>
    simp [timerInv, List.all_eq_true, List.isEmpty_iff, hb, beq_iff_eq, and_assoc]

/-- A stop request resolving with a non-2xx response changes nothing. -/
theorem stopProcessing_httpError_eq (w : World) :
    stopProcessing .httpError w = w := by
  simp only [stopProcessing]
  split <;> rfl

/-- A stop request resolving with a thrown error touches neither the
timer set nor the lifecycle fields. -/
theorem stopProcessing_netError_fields (w : World) (msg : String) :
    (stopProcessing (.netError msg) w).liveTimers = w.liveTimers ∧
    (stopProcessing (.netError msg) w).ctrl.isProcessing = w.ctrl.isProcessing ∧
    (stopProcessing (.netError msg) w).ctrl.processingInterval = w.ctrl.processingInterval := by
  simp only [stopProcessing]
  split
  · exact ⟨rfl, rfl, rfl⟩
  · exact ⟨rfl, rfl, rfl⟩

/-- A tick continuation on a thrown status-fetch error touches neither
the timer set nor the lifecycle fields. -/
theorem updateProgressCont_netError_fields (w : World) (msg : String) :
    (updateProgressCont (.netError msg) w).liveTimers = w.liveTimers ∧
    (updateProgressCont (.netError msg) w).ctrl.isProcessing = w.ctrl.isProcessing ∧
    (updateProgressCont (.netError msg) w).ctrl.processingInterval = w.ctrl.processingInterval :=
  ⟨rfl, rfl, rfl⟩

/-- A tick continuation on a non-2xx status response changes nothing. -/
theorem updateProgressCont_httpError_eq (w : World) :
    updateProgressCont .httpError w = w := rfl

/-- Characterization of the continuation of a successful tick: lifecycle
fields are preserved when the snapshot is not complete, and the terminal
completion transition is taken when it is. -/
theorem updateProgressCont_ok_not_complete (st : Status) (w : World)
    (hC : st.processing_complete = false) :
    (updateProgressCont (.ok st) w).liveTimers = w.liveTimers ∧
    (updateProgressCont (.ok st) w).ctrl.isProcessing = w.ctrl.isProcessing ∧
    (updateProgressCont (.ok st) w).ctrl.processingInterval = w.ctrl.processingInterval := by
  simp only [updateProgressCont, hC, if_false]
  refine ⟨rfl, ?_, ?_⟩ <;>
    simp [(updateResultsLog_lifecycle _ _).1, (updateResultsLog_lifecycle _ _).2.1,
      (updateProgressDisplay_lifecycle _ _).1, (updateProgressDisplay_lifecycle _ _).2.1]

/-- Characterization of the continuation of a successful tick on a
complete snapshot: the timer invariant data after the transition. -/
theorem updateProgressCont_ok_complete (st : Status) (w : World)
    (hC : st.processing_complete = true)
    (hT : ∀ t ∈ w.liveTimers, w.ctrl.processingInterval = some t) :
    (updateProgressCont (.ok st) w).liveTimers = [] ∧
    (updateProgressCont (.ok st) w).ctrl.isProcessing = false ∧
    (updateProgressCont (.ok st) w).ctrl.downloadVisible = true ∧
    (updateProgressCont (.ok st) w).ctrl.progressText = "Processing complete!" := by
  simp only [updateProgressCont, hC, if_true]
  set c2 := updateResultsLog st.results_log (updateProgressDisplay st w.ctrl) with hc2
  have hI : c2.processingInterval = w.ctrl.processingInterval := by
    rw [hc2, (updateResultsLog_lifecycle _ _).2.1, (updateProgressDisplay_lifecycle _ _).2.1]
  have hclear :
      (clearIntervalW ({ w with ctrl := c2 } : World).ctrl.processingInterval
        { w with ctrl := c2 }).liveTimers = [] := by
    apply clear_own_interval
    intro t ht
    show c2.processingInterval = some t
    rw [hI]
    exact hT t ht
  refine ⟨?_, rfl, rfl, rfl⟩
  simpa [completeProcessing] using hclear

/-- One event preserves the timer invariant, provided a start event only
fires while processing is inactive. -/
theorem timerInv_step (e : Event) (w : World) (hInv : timerInv w = true)
    (hS : e = Event.start → w.ctrl.isProcessing = false) :
    timerInv (stepEvent e w) = true := by
  rw [timerInv_iff] at hInv
  obtain ⟨h1, h2, h3⟩ := hInv
  rw [timerInv_iff]
  cases e with
  | start =>
    have hL := h3 (hS rfl)
    simp [stepEvent, startProcessing, setIntervalW, hL]
  | stopResolved o =>
    cases o with
    | ok =>
      by_cases hs : jsTruthy w.ctrl.currentSessionId = true
      · have hclear := clear_own_interval w h2
        simp only [stepEvent, stopProcessing, hs, Bool.not_true, Bool.false_eq_true, if_false]
        simp [hclear]
      · have hs' : jsTruthy w.ctrl.currentSessionId = false := by simpa using hs
        simp only [stepEvent, stopProcessing, hs', Bool.not_false, if_true]
        exact ⟨h1, h2, h3⟩
    | httpError =>
      simp only [stepEvent]
      rw [stopProcessing_httpError_eq]
      exact ⟨h1, h2, h3⟩
    | netError msg =>
      have hf := stopProcessing_netError_fields w msg
      simp only [stepEvent]
      rw [hf.1, hf.2.1, hf.2.2]
      exact ⟨h1, h2, h3⟩
  | tick o =>
    simp only [stepEvent, updateProgress, updateProgressInterleaved]
    by_cases hg : tickGuard w.ctrl = true
    · simp only [hg, if_true]
      cases o with
      | netError msg =>
        have hf := updateProgressCont_netError_fields w msg
        rw [hf.1, hf.2.1, hf.2.2]
        exact ⟨h1, h2, h3⟩
      | httpError =>
        rw [updateProgressCont_httpError_eq]
        exact ⟨h1, h2, h3⟩
      | ok st =>
        by_cases hc : st.processing_complete = true
        · have h := updateProgressCont_ok_complete st w hc h2
          rw [h.1, h.2.1]
          exact ⟨by simp, by simp, fun _ => rfl⟩
        · have h := updateProgressCont_ok_not_complete st w (by simpa using hc)
          rw [h.1, h.2.1, h.2.2]
          exact ⟨h1, h2, h3⟩
    · have hg' : tickGuard w.ctrl = false := by simpa using hg
      simp only [hg', Bool.false_eq_true, if_false]
      exact ⟨h1, h2, h3⟩
  | resume o =>
    simp only [stepEvent]
    cases o with
    | netError msg =>
      have hf := updateProgressCont_netError_fields w msg
      rw [hf.1, hf.2.1, hf.2.2]
      exact ⟨h1, h2, h3⟩
    | httpError =>
      rw [updateProgressCont_httpError_eq]
      exact ⟨h1, h2, h3⟩
    | ok st =>
      by_cases hc : st.processing_complete = true
      · have h := updateProgressCont_ok_complete st w hc h2
        rw [h.1, h.2.1]
        exact ⟨by simp, by simp, fun _ => rfl⟩
      · have h := updateProgressCont_ok_not_complete st w (by simpa using hc)
        rw [h.1, h.2.1, h.2.2]
        exact ⟨h1, h2, h3⟩

/-! ## Claim theorems -/

/-- **C1, counterexample.**  The claim says that after a stop request
resolves with success, no subsequent snapshot application — including one
whose fetch was already in flight — changes the session state away from
Stopped.  Concretely falsified: `stoppedWorld` is the stopped state
(processing off, stopped-by-user text, download hidden), a fetch was in
flight (its guard passed at `runningWorld`), and applying the complete
snapshot flips the state to Completed: completion text overwrites the
stopped display and the download affordance appears. -/
theorem c1_counterexample :
    stoppedWorld.ctrl.isProcessing = false ∧
    stoppedWorld.ctrl.progressText = "Processing stopped by user" ∧
    stoppedWorld.ctrl.downloadVisible = false ∧
    tickGuard runningWorld.ctrl = true ∧
    (updateProgressInterleaved runningWorld.ctrl (.ok statusComplete) stoppedWorld).ctrl.progressText
      = "Processing complete!" ∧
    (updateProgressInterleaved runningWorld.ctrl (.ok statusComplete) stoppedWorld).ctrl.downloadVisible
      = true := by
  refine ⟨by decide, by decide, by decide, by decide, by decide, by decide⟩

/-- **C1, amended.**  A tick whose guard runs after the stop resolved
(processing inactive) is a no-op, so such snapshots cannot change the
session state away from Stopped; but a snapshot whose fetch was already
in flight when the stop resolved is applied without re-checking the
guard, and if its completion flag is set it transitions the session to
Completed: processing stays off, the download affordance appears, and
the completion text overwrites the stopped-by-user display. -/
theorem c1_amended :
    (∀ (w : World) (o : FetchOutcome), w.ctrl.isProcessing = false →
      updateProgress o w = w) ∧
    (∀ (g : ControllerState) (w : World) (st : Status),
      tickGuard g = true → st.processing_complete = true →
      (∀ t ∈ w.liveTimers, w.ctrl.processingInterval = some t) →
      (updateProgressInterleaved g (.ok st) w).ctrl.isProcessing = false ∧
      (updateProgressInterleaved g (.ok st) w).ctrl.downloadVisible = true ∧
      (updateProgressInterleaved g (.ok st) w).ctrl.progressText = "Processing complete!") := by
  constructor
  · intro w o h
    exact updateProgress_of_not_processing o w h
  · intro g w st hG hC hT
    have h := updateProgressCont_ok_complete st w hC hT
    simp only [updateProgressInterleaved, hG, if_true]
    exact ⟨h.2.1, h.2.2.1, h.2.2.2⟩

/-- **C1, witness.** -/
theorem c1_witness :
    stoppedWorld.ctrl.isProcessing = false ∧
    updateProgress (FetchOutcome.ok statusComplete) stoppedWorld = stoppedWorld :=
  ⟨by decide, c1_amended.1 stoppedWorld (FetchOutcome.ok statusComplete) (by decide)⟩

/-- **C2, counterexample.**  The claim says the controller has at most
one live recurring timer at any time, across every sequence of start and
stop events — including a second launch while already Running — because
starting a new loop first clears any prior timer.  Concretely falsified:
`startProcessing` never clears the previous interval, so two consecutive
start events leave two live timers. -/
theorem c2_counterexample :
    (runEvents [Event.start, Event.start] sessionWorld).liveTimers.length = 2 ∧
    timerInv (runEvents [Event.start, Event.start] sessionWorld) = false := by
  refine ⟨by decide, by decide⟩

/-- **C2, amended.**  Along every event sequence in which
`startProcessing` is invoked only while processing is inactive (the flow
the UI enforces), the controller has at most one live recurring timer at
any time: stop-success and completion clear the timer before processing
restarts.  `startProcessing` itself does not clear a previously created
timer, so the restriction on start events is necessary (see the
counterexample). -/
theorem c2_amended (evs : List Event) (w : World)
    (h0 : timerInv w = true) (hG : startsGuarded evs w = true) :
    timerInv (runEvents evs w) = true ∧
    (runEvents evs w).liveTimers.length ≤ 1 := by
  induction evs generalizing w with
  | nil =>
    exact ⟨h0, ((timerInv_iff w).mp h0).1⟩
  | cons e es ih =>
    simp only [startsGuarded, Bool.and_eq_true] at hG
    simp only [runEvents]
    refine ih (stepEvent e w) (timerInv_step e w h0 ?_) hG.2
    intro he
    subst he
    simpa using hG.1

/-- **C2, witness.** -/
theorem c2_witness :
    timerInv sessionWorld = true ∧
    startsGuarded
      [Event.start, Event.tick (FetchOutcome.ok statusPartial),
       Event.stopResolved StopOutcome.ok, Event.start] sessionWorld = true ∧
    (runEvents
      [Event.start, Event.tick (FetchOutcome.ok statusPartial),
       Event.stopResolved StopOutcome.ok, Event.start] sessionWorld).liveTimers.length ≤ 1 :=
  ⟨by decide, by decide,
   (c2_amended
     [Event.start, Event.tick (FetchOutcome.ok statusPartial),
      Event.stopResolved StopOutcome.ok, Event.start] sessionWorld
     (by decide) (by decide)).2⟩

/-- **C3.**  When a polled snapshot has its completion flag set (and the
tick guard passed, with every live timer carrying the stored interval
id), the controller clears the recurring timer (no live timer remains),
transitions the session to Completed (processing inactive, completion
text), exposes the download affordance, and the transition is terminal:
every later tick is a no-op. -/
theorem c3_complete_transition (w : World) (st : Status)
    (hG : tickGuard w.ctrl = true)
    (hC : st.processing_complete = true)
    (hT : ∀ t ∈ w.liveTimers, w.ctrl.processingInterval = some t) :
    (updateProgress (.ok st) w).liveTimers = [] ∧
    (updateProgress (.ok st) w).ctrl.isProcessing = false ∧
    (updateProgress (.ok st) w).ctrl.downloadVisible = true ∧
    (updateProgress (.ok st) w).ctrl.progressText = "Processing complete!" ∧
    ∀ o : FetchOutcome, updateProgress o (updateProgress (.ok st) w) = updateProgress (.ok st) w := by
  have h := updateProgressCont_ok_complete st w hC hT
  have hEq : updateProgress (.ok st) w = updateProgressCont (.ok st) w := by
    simp [updateProgress, updateProgressInterleaved, hG]
  rw [hEq]
  refine ⟨h.1, h.2.1, h.2.2.1, h.2.2.2, ?_⟩
  intro o
  exact updateProgress_of_not_processing o _ h.2.1

/-- **C3, witness.** -/
theorem c3_witness :
    tickGuard runningWorld.ctrl = true ∧
    statusComplete.processing_complete = true ∧
    (updateProgress (FetchOutcome.ok statusComplete) runningWorld).liveTimers = [] ∧
    (updateProgress (FetchOutcome.ok statusComplete) runningWorld).ctrl.downloadVisible = true :=
  ⟨by decide, by decide,
   (c3_complete_transition runningWorld statusComplete (by decide) (by decide) (by decide)).1,
   (c3_complete_transition runningWorld statusComplete (by decide) (by decide) (by decide)).2.2.1⟩

/-- **C4, counterexample.**  The claim says every failing stop request —
non-2xx response or transport error — surfaces a StopError to the user.
Concretely falsified: on a non-2xx stop response the `if (response.ok)`
has no `else` branch, so at the running state the world is entirely
unchanged and no error is surfaced (the alert list stays empty). -/
theorem c4_counterexample :
    runningWorld.ctrl.isProcessing = true ∧
    stopProcessing StopOutcome.httpError runningWorld = runningWorld ∧
    (stopProcessing StopOutcome.httpError runningWorld).ctrl.alerts = [] := by
  refine ⟨by decide, by decide, by decide⟩

/-- **C4, amended.**  For a stop request issued with a truthy session id:
on a transport error a `Failed to stop processing` alert is surfaced and
the session remains Running with its polling timer intact; on a non-2xx
server response nothing at all happens — no error is surfaced, and the
session likewise remains Running with its timer intact.  Cancellation
takes effect only on a confirmed (2xx) stop. -/
theorem c4_amended (w : World) (msg : String)
    (h : jsTruthy w.ctrl.currentSessionId = true) :
    stopProcessing StopOutcome.httpError w = w ∧
    (stopProcessing (StopOutcome.netError msg) w).ctrl.alerts =
      ("Error: Failed to stop processing: " ++ msg) :: w.ctrl.alerts ∧
    (stopProcessing (StopOutcome.netError msg) w).ctrl.isProcessing = w.ctrl.isProcessing ∧
    (stopProcessing (StopOutcome.netError msg) w).liveTimers = w.liveTimers ∧
    (stopProcessing (StopOutcome.netError msg) w).ctrl.processingInterval =
      w.ctrl.processingInterval := by
  have hmerge : "Error: " ++ ("Failed to stop processing: " ++ msg) =
      "Error: Failed to stop processing: " ++ msg := by
    rw [← String.append_assoc]
    exact congrArg (fun x => x ++ msg) rfl
  simp [stopProcessing, h, showError, hmerge]

/-- **C4, witness.** -/
theorem c4_witness :
    jsTruthy runningWorld.ctrl.currentSessionId = true ∧
    stopProcessing StopOutcome.httpError runningWorld = runningWorld ∧
    (stopProcessing (StopOutcome.netError "boom") runningWorld).ctrl.isProcessing =
      runningWorld.ctrl.isProcessing :=
  ⟨by decide, (c4_amended runningWorld "boom" (by decide)).1,
   (c4_amended runningWorld "boom" (by decide)).2.2.1⟩

/-- **C5, counterexample.**  The claim says every status-fetch failure
during a tick — network error, parse error, or non-2xx response — is
logged for diagnostics.  Concretely falsified: a non-2xx status response
(with parseable body) leaves the running world entirely unchanged, so
nothing is logged (the console-error list stays empty). -/
theorem c5_counterexample :
    tickGuard runningWorld.ctrl = true ∧
    updateProgress FetchOutcome.httpError runningWorld = runningWorld ∧
    (updateProgress FetchOutcome.httpError runningWorld).ctrl.consoleErrors = [] := by
  refine ⟨by decide, by decide, by decide⟩

/-- **C5, amended.**  During a tick whose guard passed: a thrown network
or parse error is logged to the console for diagnostics and changes
nothing else — the session is not transitioned and the timer set is
untouched, so the next scheduled tick retries; a non-2xx response is
ignored entirely (nothing logged, nothing changed). -/
theorem c5_amended (w : World) (msg : String) (h : tickGuard w.ctrl = true) :
    (updateProgress (FetchOutcome.netError msg) w).ctrl.consoleErrors =
      ("Failed to update progress: " ++ msg) :: w.ctrl.consoleErrors ∧
    (updateProgress (FetchOutcome.netError msg) w).liveTimers = w.liveTimers ∧
    (updateProgress (FetchOutcome.netError msg) w).ctrl.isProcessing = w.ctrl.isProcessing ∧
    (updateProgress (FetchOutcome.netError msg) w).ctrl.processingInterval =
      w.ctrl.processingInterval ∧
    updateProgress FetchOutcome.httpError w = w := by
  simp [updateProgress, updateProgressInterleaved, updateProgressCont, h]

/-- **C5, witness.** -/
theorem c5_witness :
    tickGuard runningWorld.ctrl = true ∧
    (updateProgress (FetchOutcome.netError "timeout") runningWorld).ctrl.consoleErrors =
      ("Failed to update progress: " ++ "timeout") :: runningWorld.ctrl.consoleErrors ∧
    updateProgress FetchOutcome.httpError runningWorld = runningWorld :=
  ⟨by decide, (c5_amended runningWorld "timeout" (by decide)).1,
   (c5_amended runningWorld "timeout" (by decide)).2.2.2.2⟩

/-- **C6.**  Acceptance of an uploaded file is decided solely by a
case-insensitive check that the filename ends in `.csv`: the decision
depends only on the lowercased character sequence of the name; a name
failing the check is rejected immediately — the validation error is
surfaced via `showError` and no network call is made; a name passing the
check proceeds to the network call.  In particular `FILE.CSV` is
accepted and `file.txt` is rejected. -/
theorem c6_csv_validation :
    (∀ (name : String) (c : ControllerState), endsWithCsvCI name = false →
      handleFileUpload name c = (showError "Please select a CSV file." c, false)) ∧
    (∀ (name : String) (c : ControllerState), endsWithCsvCI name = true →
      (handleFileUpload name c).2 = true) ∧
    (∀ (n₁ n₂ : String) (c : ControllerState),
      n₁.data.map Char.toLower = n₂.data.map Char.toLower →
      handleFileUpload n₁ c = handleFileUpload n₂ c) ∧
    (handleFileUpload "FILE.CSV" initCtrl).2 = true ∧
    handleFileUpload "file.txt" initCtrl = (showError "Please select a CSV file." initCtrl, false) := by
  refine ⟨?_, ?_, ?_, by decide, ?_⟩
  · intro name c h
    simp [handleFileUpload, h]
  · intro name c h
    simp [handleFileUpload, h]
  · intro n₁ n₂ c h
    simp only [handleFileUpload, endsWithCsvCI, h]
  · have h : endsWithCsvCI "file.txt" = false := by decide
    simp [handleFileUpload, h]

/-- **C6, witness.** -/
theorem c6_witness :
    endsWithCsvCI "file.txt" = false ∧
    handleFileUpload "file.txt" initCtrl = (showError "Please select a CSV file." initCtrl, false) :=
  ⟨by decide, c6_csv_validation.1 "file.txt" initCtrl (by decide)⟩

/-- **C7.**  With a truthy session id, the column-mapping validation of
`processFile` passes — and the start-processing network call is issued —
if and only if all four bindings (address, city, state, zip) are
non-empty strings; whenever any binding is empty, the validation error
is surfaced and no network call is made (submission is blocked). -/
theorem c7_mapping_validation (ctrl : ControllerState) (a c s z : String)
    (h : jsTruthy ctrl.currentSessionId = true) :
    ((processFile a c s z ctrl).2 = true ↔ (a ≠ "" ∧ c ≠ "" ∧ s ≠ "" ∧ z ≠ "")) ∧
    ((a = "" ∨ c = "" ∨ s = "" ∨ z = "") →
      processFile a c s z ctrl = (showError "Please select all column mappings" ctrl, false)) := by
  have hiff : (a == "" || c == "" || s == "" || z == "") = true ↔
      (a = "" ∨ c = "" ∨ s = "" ∨ z = "") := by
    simp [Bool.or_eq_true, beq_iff_eq, or_assoc]
  constructor
  · by_cases hm : (a == "" || c == "" || s == "" || z == "") = true
    · have hm' := hiff.mp hm
      simp only [processFile, h, Bool.not_true, Bool.false_eq_true, if_false, hm, if_true]
      simp only [Bool.false_eq_true, false_iff]
      tauto
    · have hm' := hm
      rw [hiff] at hm'
      have hmf : (a == "" || c == "" || s == "" || z == "") = false := by
        simpa using hm
      simp only [processFile, h, Bool.not_true, Bool.false_eq_true, if_false, hmf, if_false]
      simp only [true_iff]
      tauto
  · intro hm
    have hb : (a == "" || c == "" || s == "" || z == "") = true := hiff.mpr hm
    simp [processFile, h, hb]

/-- **C7, witness.** -/
theorem c7_witness :
    jsTruthy sessionCtrl.currentSessionId = true ∧
    processFile "Addr" "City" "" "Zip" sessionCtrl =
      (showError "Please select all column mappings" sessionCtrl, false) :=
  ⟨by decide,
   (c7_mapping_validation sessionCtrl "Addr" "City" "" "Zip" (by decide)).2
     (Or.inr (Or.inr (Or.inl rfl)))⟩

/-- **C8.**  For every snapshot carrying both counts, the displayed
success rate is the successful count divided by successful plus failed,
rounded to a whole percent (the displayed integer is within half a
percent of the true ratio times 100); when both counts are zero no
division happens and the rate reads `0%`.  In particular 7 successes and
3 failures display `70%`, and 0 and 0 display `0%`. -/
theorem c8_success_rate (st : Status) (s f : ℕ)
    (h1 : st.successful_geocodes = some s) (h2 : st.failed_geocodes = some f) :
    (s + f = 0 → successRateOf st = "0%") ∧
    (0 < s + f → ∃ r : ℤ, successRateOf st = toString r ++ "%" ∧
      |(s : ℚ) * 100 / ((s : ℚ) + (f : ℚ)) - (r : ℚ)| ≤ 1 / 2) ∧
    successRateOf status73 = "70%" ∧
    successRateOf status00 = "0%" := by
  have hx : ∀ s f : ℕ, ((s : ℚ) / ((s + f : ℕ) : ℚ)) * 100 = (s : ℚ) * 100 / ((s : ℚ) + (f : ℚ)) := by
    intro s f
    push_cast
    ring
  refine ⟨?_, ?_, ?_, ?_⟩
  · intro h0
    simp [successRateOf, h1, h2, h0]
  · intro hpos
    refine ⟨round ((s : ℚ) * 100 / ((s : ℚ) + (f : ℚ))), ?_, abs_sub_round _⟩
    simp only [successRateOf, h1, h2, Option.getD_some]
    rw [if_pos hpos, hx s f]
  · simp only [successRateOf, status73, Option.getD_some]
    norm_num
    rfl
  · simp [successRateOf, status00]

/-- **C8, witness.** -/
theorem c8_witness :
    status73.successful_geocodes = some 7 ∧
    status73.failed_geocodes = some 3 ∧
    successRateOf status73 = "70%" :=
  ⟨rfl, rfl, (c8_success_rate status73 7 3 rfl rfl).2.2.1⟩

/-- **C9.**  For every non-empty log sequence of length n, the rendered
view after an update contains exactly min(n, 50) entries and is a suffix
of the input — the last min(n, 50) entries in their original order. -/
theorem c9_log_window (entries : List LogEntry) (c : ControllerState)
    (h : entries ≠ []) :
    (updateResultsLog (some entries) c).renderedLog.length = min entries.length 50 ∧
    (updateResultsLog (some entries) c).renderedLog <:+ entries := by
  have hlen : (entries.length == 0) = false := by
    simp [List.length_eq_zero, h]
  simp only [updateResultsLog, hlen, Bool.false_eq_true, if_false]
  constructor
  · simp only [List.length_drop]
    omega
  · exact List.drop_suffix _ _

/-- **C9, witness.**  The 200-entry log renders exactly 50 entries, the
last 50 in order. -/
theorem c9_witness :
    entries200 ≠ [] ∧
    (updateResultsLog (some entries200) initCtrl).renderedLog.length = min entries200.length 50 ∧
    (updateResultsLog (some entries200) initCtrl).renderedLog <:+ entries200 :=
  ⟨by decide, (c9_log_window entries200 initCtrl (by decide)).1,
   (c9_log_window entries200 initCtrl (by decide)).2⟩

/-- **C10.**  A call to the log renderer with a null / undefined or empty
log sequence leaves the controller state entirely unchanged: the
previously rendered entries remain and no scroll occurs (full-replacement
semantics do not apply to the empty update). -/
theorem c10_empty_log_noop (c : ControllerState) :
    updateResultsLog none c = c ∧ updateResultsLog (some []) c = c :=
  ⟨rfl, rfl⟩
